import Mathlib

/-!
Verification of the FraudGuard feature-encoding and risk-classification
engine (`src/app.py`) against its natural-language specification.

The Python source is shallowly embedded: the reference dataframe `df`
becomes a list of named string columns, `encode_input` becomes a total
function on that dataset, the 18-entry `input_features` list becomes a
`List ℚ`, the model object becomes an inductive tree of estimators with
attribute association lists, and the Streamlit prediction block becomes
an explicit function of the button state, the loaded model and the score
outcome.
-/

namespace FraudGuard

/-- A column of the reference dataset `df`: its (cleaned) name and the list
of string values observed in that column, in row order. -/
structure Column where
  name : String
  values : List String
deriving DecidableEq

/-- The reference dataset `df`: the list of its columns. -/
abbrev Dataset := List Column

/-- `column_name in df.columns` resolved to the column itself:
the first column whose name matches. -/
def findColumn (ds : Dataset) (name : String) : Option Column :=
  ds.find? (fun c => c.name == name)

/-- `sorted(df[column_name].unique())`: the distinct values of a column,
sorted lexicographically. -/
def sortedUnique (vals : List String) : List String :=
  List.insertionSort (· ≤ ·) vals.dedup

/-- Embedding of `encode_input` (src/app.py lines 166-175).

```
def encode_input(column_name, user_selection):
    if column_name in df.columns:
        unique_values = sorted(df[column_name].unique())
        try:
            return unique_values.index(user_selection)
        except ValueError:
            return 0
    return 0
```

`list.index` raising `ValueError` (value absent) is modelled by the
membership test guarding `indexOf`. -/
def encode_input (ds : Dataset) (column_name user_selection : String) : Nat :=
  match findColumn ds column_name with
  | some col =>
      let unique_values := sortedUnique col.values
      if user_selection ∈ unique_values then
        unique_values.indexOf user_selection
      else 0
  | none => 0

/-- The raw transaction attributes collected by the input form
(src/app.py lines 184-229). Numeric entries are rationals or naturals;
categorical entries are the selected strings. -/
structure TransactionInput where
  transaction_amount : ℚ
  account_balance : ℚ
  transaction_type : String
  device_type : String
  location : String
  merchant_category : String
  daily_transaction_count : Nat
  avg_transaction_amount_7d : ℚ
  failed_transaction_count_7d : Nat
  card_type : String
  card_age : Nat
  transaction_distance : ℚ
  authentication_method : String
  is_weekend : Bool
  hour : Nat
  day : Nat
  month : Nat
  day_of_week : Nat

/-- Embedding of the `input_features` list (src/app.py lines 249-268):
the feature vector handed to the model, in the exact order the source
writes it. -/
def input_features (ds : Dataset) (t : TransactionInput) : List ℚ :=
  [ t.transaction_amount,
    (encode_input ds "transaction_type" t.transaction_type : ℚ),
    t.account_balance,
    (encode_input ds "device_type" t.device_type : ℚ),
    (encode_input ds "location" t.location : ℚ),
    (encode_input ds "merchant_category" t.merchant_category : ℚ),
    (t.daily_transaction_count : ℚ),
    t.avg_transaction_amount_7d,
    (t.failed_transaction_count_7d : ℚ),
    (encode_input ds "card_type" t.card_type : ℚ),
    (t.card_age : ℚ),
    t.transaction_distance,
    (encode_input ds "authentication_method" t.authentication_method : ℚ),
    (if t.is_weekend then (1 : ℚ) else 0),
    (t.hour : ℚ),
    (t.day : ℚ),
    (t.month : ℚ),
    (t.day_of_week : ℚ) ]

/-- The column-name list `cols` (src/app.py lines 271-277) that labels the
feature vector when it is wrapped in a dataframe. -/
def cols : List String :=
  [ "transaction_amount", "transaction_type", "account_balance", "device_type",
    "location", "merchant_category", "daily_transaction_count",
    "avg_transaction_amount_7d", "failed_transaction_count_7d", "card_type",
    "card_age", "transaction_distance", "authentication_method", "is_weekend",
    "hour", "day", "month", "day_of_week" ]

/-- The displayed outcome of classification (src/app.py lines 291-308):
label, colour, icon, message and the intensity of the risk bar. -/
structure RiskDisplay where
  risk_level : String
  risk_color : String
  risk_icon : String
  risk_message : String
  bar_width : String
deriving DecidableEq

/-- The CRITICAL branch of the classifier (src/app.py lines 291-296). -/
def criticalDisplay : RiskDisplay :=
  ⟨"CRITICAL RISK", "#FF4B4B", "🛡️❌",
   "Transaction Blocked - High Fraud Probability", "100%"⟩

/-- The WARNING branch of the classifier (src/app.py lines 297-302). -/
def warningDisplay : RiskDisplay :=
  ⟨"WARNING", "#FFA500", "⚠️", "Manual Review Required", "60%"⟩

/-- The SAFE branch of the classifier (src/app.py lines 303-308). -/
def safeDisplay : RiskDisplay :=
  ⟨"SAFE", "#00CC96", "🛡️✅", "Transaction Verified Successfully", "5%"⟩

/-- Embedding of the risk classification chain (src/app.py lines 291-308):
`if probability > 0.5 ... elif probability > 0.3 ... else ...`. -/
def classify (probability : ℚ) : RiskDisplay :=
  if probability > 1/2 then criticalDisplay
  else if probability > 3/10 then warningDisplay
  else safeDisplay

/-- The registry's inverse lookup, as the spec describes it: indexing the
sorted distinct-value list of the field's column by the integer code. -/
def decode (ds : Dataset) (f : String) (code : Nat) : Option String :=
  match findColumn ds f with
  | some col => (sortedUnique col.values)[code]?
  | none => none

/-- A categorical value is known to the registry: its field resolves to a
column of the reference dataset and the value occurs in that column. -/
def knownCategory (ds : Dataset) (f v : String) : Prop :=
  ∃ col, findColumn ds f = some col ∧ v ∈ col.values

/-- A concrete reference-dataset column for `location`, with a duplicate
observation. -/
def locationCol : Column := ⟨"location", ["City B", "City A", "City B"]⟩

/-- A concrete reference dataset holding all six categorical columns the
input form encodes against. -/
def sampleDs : Dataset :=
  [ ⟨"transaction_type", ["POS", "Online"]⟩,
    ⟨"device_type", ["Mobile", "Desktop"]⟩,
    locationCol,
    ⟨"merchant_category", ["Retail", "Travel"]⟩,
    ⟨"card_type", ["Visa", "MasterCard"]⟩,
    ⟨"authentication_method", ["PIN", "Biometric"]⟩ ]

/-- A concrete transaction whose categorical values are all observed in
`sampleDs` (the spec's Scenario A shape). -/
def sampleTransaction : TransactionInput :=
  ⟨100, 5000, "POS", "Mobile", "City A", "Retail", 1, 50, 0, "Visa",
   365, 10, "PIN", false, 12, 15, 6, 2⟩

/-- The same transaction with `location` set to a value the reference
dataset never observed (the spec's Scenario D). -/
def marsTransaction : TransactionInput :=
  { sampleTransaction with location := "Mars" }

/-- A Python attribute value on an estimator; `none` embeds Python's
`None`, the neutral default the patch writes. -/
inductive PyValue where
  | none
  | int (n : Int)
  | str (s : String)
deriving DecidableEq

/-- The in-memory model object `joblib.load` returns: an ensemble carrying
sub-estimators (`estimators_`), a pipeline carrying named `steps`, or a
leaf estimator. Every node carries its attribute table; `hasattr` checks it
and `setattr` extends it. -/
inductive Model where
  | ensemble (attrs : List (String × PyValue)) (estimators_ : List Model)
  | pipeline (attrs : List (String × PyValue)) (steps : List (String × Model))
  | leaf (attrs : List (String × PyValue))

/-- The attribute table of a model node. -/
def attrsOf : Model → List (String × PyValue)
  | .ensemble attrs _ => attrs
  | .pipeline attrs _ => attrs
  | .leaf attrs => attrs

/-- The direct sub-estimators the patch recurses into: the members of
`estimators_` for an ensemble, the estimators of the named `steps` for a
pipeline, nothing for a leaf. -/
def children : Model → List Model
  | .ensemble _ ests => ests
  | .pipeline _ steps => steps.map Prod.snd
  | .leaf _ => []

/-- Whether the node is a leaf estimator (neither `estimators_` nor
`steps`). -/
def isLeaf : Model → Bool
  | .leaf _ => true
  | _ => false

/-- `hasattr(model, name)` on the embedded attribute table. -/
def hasattr (m : Model) (name : String) : Bool :=
  ((attrsOf m).lookup name).isSome

/-- Embedding of `patch_model_recursive` (src/app.py lines 69-81): recurse
into `estimators_` when present, else into pipeline `steps`, else — on a
leaf — `setattr(model, "monotonic_cst", None)` unless the attribute is
already there. -/
def patch_model_recursive : Model → Model
  | .ensemble attrs ests =>
      .ensemble attrs (ests.attach.map (fun e => patch_model_recursive e.1))
  | .pipeline attrs steps =>
      .pipeline attrs
        (steps.attach.map (fun s => (s.1.1, patch_model_recursive s.1.2)))
  | .leaf attrs =>
      if (attrs.lookup "monotonic_cst").isSome then .leaf attrs
      else .leaf (attrs ++ [("monotonic_cst", PyValue.none)])
termination_by m => sizeOf m
decreasing_by
  · have h1 := List.sizeOf_lt_of_mem e.2
    simp only [Model.ensemble.sizeOf_spec]
    omega
  · have h1 := List.sizeOf_lt_of_mem s.2
    have h2 : sizeOf s.1.2 < sizeOf s.1 := by
      rcases s.1 with ⟨a, b⟩
      simp only [Prod.mk.sizeOf_spec]
      omega
    simp only [Model.pipeline.sizeOf_spec]
    omega

/-- Outcome of the call `joblib.load(MODEL_PATH)`. -/
inductive LoadOutcome where
  | found (m : Model)
  | fileNotFound
  | raises (e : String)

/-- Embedding of `load_model` (src/app.py lines 83-91): a found artifact is
patched and returned; a missing file is caught and `None` returned after a
warning (the Bool records that the demo-mode warning was shown); any other
exception escapes the `except FileNotFoundError` clause uncaught, modelled
by `Except.error`. -/
def load_model : LoadOutcome → Except String (Option Model × Bool)
  | .found m => .ok (some (patch_model_recursive m), false)
  | .fileNotFound => .ok (none, true)
  | .raises e => .error e

/-- Outcome of `model.predict_proba(input_df)[0][1]` inside the `try`
block. -/
inductive PredictOutcome where
  | ok (p : ℚ)
  | raises (e : String)

/-- Embedding of the prediction block (src/app.py lines 238-308), guarded
by `if predict_btn and model:`. It returns `none` when the button is not
pressed or no model is loaded; otherwise the displayed error message (if
the model raised), the probability actually used, and the rendered risk
display. On an exception the code shows `Prediction Error: ...` and sets
`probability = 0.0` before classifying. -/
def prediction_run (predict_btn : Bool) (model : Option Model)
    (score : Model → List ℚ → PredictOutcome) (ds : Dataset)
    (t : TransactionInput) : Option (Option String × ℚ × RiskDisplay) :=
  match predict_btn, model with
  | true, some m =>
      match score m (input_features ds t) with
      | .ok p => some (none, p, classify p)
      | .raises e => some (some ("Prediction Error: " ++ e), 0, classify 0)
  | _, _ => none

/-- A score function that always raises a feature-shape mismatch (the
spec's Scenario B). -/
def failingScore : Model → List ℚ → PredictOutcome :=
  fun _ _ => .raises "shape mismatch"

/-- The sample transaction with a negative amount, violating the declared
non-negativity constraint. -/
def negativeAmountTransaction : TransactionInput :=
  { sampleTransaction with transaction_amount := -1 }

theorem mem_sortedUnique {vals : List String} {v : String} :
    v ∈ sortedUnique vals ↔ v ∈ vals := by
  unfold sortedUnique
  rw [List.mem_insertionSort, List.mem_dedup]

theorem sortedUnique_sorted (vals : List String) :
    List.Sorted (· ≤ ·) (sortedUnique vals) :=
  List.sorted_insertionSort _ _

theorem sortedUnique_nodup (vals : List String) : (sortedUnique vals).Nodup :=
  (List.perm_insertionSort _ _).nodup_iff.mpr vals.nodup_dedup

theorem sortedUnique_length (vals : List String) :
    (sortedUnique vals).length = vals.dedup.length :=
  List.length_insertionSort _ _

theorem encode_input_known {ds : Dataset} {f v : String} {col : Column}
    (hcol : findColumn ds f = some col) (hv : v ∈ col.values) :
    encode_input ds f v = (sortedUnique col.values).indexOf v := by
  unfold encode_input
  rw [hcol]
  exact if_pos (mem_sortedUnique.mpr hv)

theorem decode_encode {ds : Dataset} {f v : String} {col : Column}
    (hcol : findColumn ds f = some col) (hv : v ∈ col.values) :
    decode ds f (encode_input ds f v) = some v := by
  have hv2 : v ∈ sortedUnique col.values := mem_sortedUnique.mpr hv
  have hlt : (sortedUnique col.values).indexOf v < (sortedUnique col.values).length :=
    List.indexOf_lt_length.mpr hv2
  unfold decode
  rw [hcol]
  show (sortedUnique col.values)[encode_input ds f v]? = some v
  rw [encode_input_known hcol hv,
    List.getElem?_eq_getElem hlt, List.getElem_indexOf hlt]

theorem decode_encode_known {ds : Dataset} {f v : String}
    (h : knownCategory ds f v) :
    decode ds f (encode_input ds f v) = some v := by
  obtain ⟨col, hcol, hv⟩ := h
  exact decode_encode hcol hv

theorem encode_input_bound {ds : Dataset} {f v : String} {col : Column}
    (hcol : findColumn ds f = some col) (hv : v ∈ col.values) :
    encode_input ds f v < col.values.dedup.length := by
  rw [encode_input_known hcol hv, ← sortedUnique_length]
  exact List.indexOf_lt_length.mpr (mem_sortedUnique.mpr hv)

theorem encode_input_none {ds : Dataset} {f v : String}
    (hnone : findColumn ds f = none) : encode_input ds f v = 0 := by
  unfold encode_input
  rw [hnone]

theorem encode_input_absent {ds : Dataset} {f v : String} {col : Column}
    (hcol : findColumn ds f = some col) (hv : v ∉ col.values) :
    encode_input ds f v = 0 := by
  unfold encode_input
  rw [hcol]
  exact if_neg (fun hmem => hv (mem_sortedUnique.mp hmem))

theorem patch_ensemble (attrs : List (String × PyValue)) (ests : List Model) :
    patch_model_recursive (.ensemble attrs ests) =
      .ensemble attrs (ests.map patch_model_recursive) := by
  rw [patch_model_recursive]
  rw [List.attach_map_coe]

theorem patch_pipeline (attrs : List (String × PyValue))
    (steps : List (String × Model)) :
    patch_model_recursive (.pipeline attrs steps) =
      .pipeline attrs
        (steps.map (fun s => (s.1, patch_model_recursive s.2))) := by
  rw [patch_model_recursive]
  rw [List.attach_map_coe (f := fun s : String × Model =>
    (s.1, patch_model_recursive s.2))]

theorem patch_leaf (attrs : List (String × PyValue)) :
    patch_model_recursive (.leaf attrs) =
      if (attrs.lookup "monotonic_cst").isSome then Model.leaf attrs
      else .leaf (attrs ++ [("monotonic_cst", PyValue.none)]) := by
  rw [patch_model_recursive]

theorem lookup_append_left {β : Type} (l l2 : List (String × β)) (k : String)
    (h : (l.lookup k).isSome) : (l ++ l2).lookup k = l.lookup k := by
  induction l with
  | nil => simp [List.lookup] at h
  | cons p rest ih =>
    rcases p with ⟨a, b⟩
    cases hk : (k == a) with
    | true => simp [List.lookup, hk]
    | false =>
      simp only [List.cons_append, List.lookup, hk] at h ⊢
      exact ih h

theorem lookup_append_none {β : Type} (l l2 : List (String × β)) (k : String)
    (h : l.lookup k = none) : (l ++ l2).lookup k = l2.lookup k := by
  induction l with
  | nil => simp
  | cons p rest ih =>
    rcases p with ⟨a, b⟩
    cases hk : (k == a) with
    | true => simp [List.lookup, hk] at h
    | false =>
      simp only [List.cons_append, List.lookup, hk] at h ⊢
      exact ih h

theorem classify_zero : classify 0 = safeDisplay := by
  unfold classify
  rw [if_neg (by norm_num), if_neg (by norm_num)]

end FraudGuard

namespace FraudGuard

/-- **C1.** For every dataset and transaction input, the feature vector has
exactly 18 entries, and entry `i` holds the schema field of position `i`:
amount, encoded transactionType, accountBalance, encoded deviceType, encoded
location, encoded merchantCategory, dailyTransactionCount,
avgTransactionAmount7d, failedTransactionCount7d, encoded cardType,
cardAgeDays, distanceFromHomeKm, encoded authenticationMethod, isWeekend,
hourOfDay, dayOfMonth, month, dayOfWeek; the column-label list agrees with
this order and also has 18 entries. -/
theorem feature_vector_schema (ds : Dataset) (t : TransactionInput) :
    (input_features ds t).length = 18 ∧
    cols.length = 18 ∧
    (input_features ds t)[0]? = some t.transaction_amount ∧
    (input_features ds t)[1]? =
      some (encode_input ds "transaction_type" t.transaction_type : ℚ) ∧
    (input_features ds t)[2]? = some t.account_balance ∧
    (input_features ds t)[3]? =
      some (encode_input ds "device_type" t.device_type : ℚ) ∧
    (input_features ds t)[4]? =
      some (encode_input ds "location" t.location : ℚ) ∧
    (input_features ds t)[5]? =
      some (encode_input ds "merchant_category" t.merchant_category : ℚ) ∧
    (input_features ds t)[6]? = some (t.daily_transaction_count : ℚ) ∧
    (input_features ds t)[7]? = some t.avg_transaction_amount_7d ∧
    (input_features ds t)[8]? = some (t.failed_transaction_count_7d : ℚ) ∧
    (input_features ds t)[9]? =
      some (encode_input ds "card_type" t.card_type : ℚ) ∧
    (input_features ds t)[10]? = some (t.card_age : ℚ) ∧
    (input_features ds t)[11]? = some t.transaction_distance ∧
    (input_features ds t)[12]? =
      some (encode_input ds "authentication_method" t.authentication_method : ℚ) ∧
    (input_features ds t)[13]? = some (if t.is_weekend then (1 : ℚ) else 0) ∧
    (input_features ds t)[14]? = some (t.hour : ℚ) ∧
    (input_features ds t)[15]? = some (t.day : ℚ) ∧
    (input_features ds t)[16]? = some (t.month : ℚ) ∧
    (input_features ds t)[17]? = some (t.day_of_week : ℚ) := by
  refine ⟨rfl, rfl, ?_⟩
  simp [input_features]

/-- **C2.** For every probability `p` in `[0,1]`, the classifier assigns
exactly one tier, with no gap or overlap: CRITICAL iff `p > 0.5`, WARNING iff
`0.3 < p ≤ 0.5`, SAFE iff `p ≤ 0.3`; at the boundaries `classify 0.5` is the
WARNING display and `classify 0.3` the SAFE display; each tier carries its
fixed message and bar intensity (100%, 60%, 5%), and the three displays are
pairwise distinct. -/
theorem risk_classifier_partition (p : ℚ) (h0 : 0 ≤ p) (h1 : p ≤ 1) :
    (classify p = criticalDisplay ↔ 1/2 < p) ∧
    (classify p = warningDisplay ↔ 3/10 < p ∧ p ≤ 1/2) ∧
    (classify p = safeDisplay ↔ p ≤ 3/10) ∧
    classify (1/2) = warningDisplay ∧
    classify (3/10) = safeDisplay ∧
    criticalDisplay.risk_message = "Transaction Blocked - High Fraud Probability" ∧
    criticalDisplay.bar_width = "100%" ∧
    warningDisplay.risk_message = "Manual Review Required" ∧
    warningDisplay.bar_width = "60%" ∧
    safeDisplay.risk_message = "Transaction Verified Successfully" ∧
    safeDisplay.bar_width = "5%" ∧
    criticalDisplay ≠ warningDisplay ∧
    criticalDisplay ≠ safeDisplay ∧
    warningDisplay ≠ safeDisplay := by
  have hbound1 : classify (1/2 : ℚ) = warningDisplay := by
    unfold classify
    rw [if_neg (by norm_num), if_pos (by norm_num)]
  have hbound2 : classify (3/10 : ℚ) = safeDisplay := by
    unfold classify
    rw [if_neg (by norm_num), if_neg (by norm_num)]
  refine ⟨?_, ?_, ?_, hbound1, hbound2,
    rfl, rfl, rfl, rfl, rfl, rfl, by decide, by decide, by decide⟩
  · unfold classify
    split_ifs with hc hw
    · simp only [true_iff]; linarith
    · constructor
      · intro h; exact absurd h (by decide)
      · intro h; linarith
    · constructor
      · intro h; exact absurd h (by decide)
      · intro h; linarith
  · unfold classify
    split_ifs with hc hw
    · constructor
      · intro h; exact absurd h.symm (by decide)
      · intro h; linarith [h.2]
    · simp only [true_iff]; exact ⟨hw, by linarith⟩
    · constructor
      · intro h; exact absurd h (by decide)
      · intro h; exact absurd h.1 (by linarith)
  · unfold classify
    split_ifs with hc hw
    · constructor
      · intro h; exact absurd h.symm (by decide)
      · intro h; linarith
    · constructor
      · intro h; exact absurd h (by decide)
      · intro h; linarith
    · simp only [true_iff]; linarith

/-- Witness for C2: at the concrete probability `2/5` the classifier lands in
the WARNING bucket, by the partition theorem. -/
theorem risk_classifier_partition_witness :
    classify (2/5) = warningDisplay :=
  ((risk_classifier_partition (2/5) (by norm_num) (by norm_num)).2.1).2
    ⟨by norm_num, by norm_num⟩

/-- **C5.** When the field resolves to a column of the reference dataset and
the value occurs in that column, `encode_input` returns exactly the index of
the value in the sorted list of the column's distinct values; that list is
sorted, duplicate-free, of length `k` (the number of distinct values), the
code is in `[0, k-1]`, and the list at the code position holds the value. -/
theorem encode_sorted_index (ds : Dataset) (f v : String) (col : Column)
    (hcol : findColumn ds f = some col) (hv : v ∈ col.values) :
    encode_input ds f v = (sortedUnique col.values).indexOf v ∧
    encode_input ds f v < col.values.dedup.length ∧
    (sortedUnique col.values)[encode_input ds f v]? = some v ∧
    List.Sorted (· ≤ ·) (sortedUnique col.values) ∧
    (sortedUnique col.values).Nodup ∧
    (sortedUnique col.values).length = col.values.dedup.length := by
  have hv2 : v ∈ sortedUnique col.values := mem_sortedUnique.mpr hv
  have hlt : (sortedUnique col.values).indexOf v < (sortedUnique col.values).length :=
    List.indexOf_lt_length.mpr hv2
  have henc := encode_input_known hcol hv
  refine ⟨henc, ?_, ?_, sortedUnique_sorted _, sortedUnique_nodup _,
    sortedUnique_length _⟩
  · rw [henc, ← sortedUnique_length]
    exact hlt
  · rw [henc, List.getElem?_eq_getElem hlt, List.getElem_indexOf hlt]

/-- Witness for C5: in the sample dataset, `"City B"` in the `location`
column is encoded as its index in the sorted distinct-value list. -/
theorem encode_sorted_index_witness :
    encode_input sampleDs "location" "City B" =
      (sortedUnique locationCol.values).indexOf "City B" :=
  (encode_sorted_index sampleDs "location" "City B" locationCol rfl
    (by decide)).1

/-- **C10.** `encode_input` is total: it always returns a natural number; if
the field is not a column of the reference dataset it returns 0; if the
value is absent from the column's values it returns 0; and if the value is
present it returns an index below `k`, the number of distinct values of the
column. -/
theorem encode_total_bounds (ds : Dataset) (f v : String) :
    (findColumn ds f = none → encode_input ds f v = 0) ∧
    (∀ col, findColumn ds f = some col →
      (v ∉ col.values → encode_input ds f v = 0) ∧
      (v ∈ col.values → encode_input ds f v < col.values.dedup.length)) := by
  exact ⟨fun hnone => encode_input_none hnone,
    fun col hcol =>
      ⟨fun hv => encode_input_absent hcol hv,
       fun hv => encode_input_bound hcol hv⟩⟩

/-- Witness for C10: the unknown value `"Mars"` in the `location` column
gets the default code 0, and the known value `"City A"` gets a code below
the distinct-value count 2. -/
theorem encode_total_bounds_witness :
    encode_input sampleDs "location" "Mars" = 0 ∧
    encode_input sampleDs "location" "City A" < 2 :=
  ⟨(((encode_total_bounds sampleDs "location" "Mars").2 locationCol rfl).1)
      (by decide),
   (((encode_total_bounds sampleDs "location" "City A").2 locationCol rfl).2)
      (by decide)⟩

/-- Counterexample to C3 as stated: `"Mars"` was never observed in the
`location` column of the reference dataset, yet `encode_input` does not
fail — it falls through to the default code 0 — and building the feature
vector for a transaction located at `"Mars"` still produces a full 18-entry
vector carrying that default code at the `location` position. -/
theorem encode_unknown_counterexample :
    ("Mars" ∈ locationCol.values → False) ∧
    findColumn sampleDs "location" = some locationCol ∧
    encode_input sampleDs "location" "Mars" = 0 ∧
    (input_features sampleDs marsTransaction).length = 18 ∧
    (input_features sampleDs marsTransaction)[4]? = some 0 := by
  have hcol : findColumn sampleDs "location" = some locationCol := by
    unfold findColumn sampleDs
    simp [List.find?, locationCol]
  have hmars : encode_input sampleDs "location" "Mars" = 0 :=
    encode_input_absent hcol (by decide)
  refine ⟨by decide, hcol, hmars, rfl, ?_⟩
  show some ((encode_input sampleDs "location" marsTransaction.location : ℚ)) = some 0
  have : marsTransaction.location = "Mars" := rfl
  rw [this, hmars]
  norm_num

/-- **C3 (amended).** For every categorical field `f` and value `v` that is
unknown to the registry (the field is not a dataset column, or the value is
absent from that column), `encode_input` does not fail: it falls through to
the default code 0, and building a feature vector containing such a value
still succeeds, producing an 18-entry vector. -/
theorem encode_unknown_default_zero (ds : Dataset) (f v : String)
    (t : TransactionInput)
    (h : findColumn ds f = none ∨
      ∃ col, findColumn ds f = some col ∧ v ∉ col.values) :
    encode_input ds f v = 0 ∧ (input_features ds t).length = 18 := by
  refine ⟨?_, rfl⟩
  rcases h with hnone | ⟨col, hcol, hv⟩
  · exact encode_input_none hnone
  · exact encode_input_absent hcol hv

/-- Witness for C3 (amended): the unobserved location `"Mars"` encodes to
the default code 0 and the Mars transaction still yields an 18-entry
vector. -/
theorem encode_unknown_default_zero_witness :
    encode_input sampleDs "location" "Mars" = 0 ∧
    (input_features sampleDs marsTransaction).length = 18 :=
  encode_unknown_default_zero sampleDs "location" "Mars" marsTransaction
    (Or.inr ⟨locationCol, rfl, by decide⟩)

/-- **C8.** Round-trip: for every transaction whose six categorical values
are all known to the registry, encoding each categorical field and then
decoding the resulting code through the registry's inverse lookup (indexing
the sorted distinct-value list by the code) reproduces the original
category labels. -/
theorem encode_decode_roundtrip (ds : Dataset) (t : TransactionInput)
    (h1 : knownCategory ds "transaction_type" t.transaction_type)
    (h2 : knownCategory ds "device_type" t.device_type)
    (h3 : knownCategory ds "location" t.location)
    (h4 : knownCategory ds "merchant_category" t.merchant_category)
    (h5 : knownCategory ds "card_type" t.card_type)
    (h6 : knownCategory ds "authentication_method" t.authentication_method) :
    decode ds "transaction_type"
      (encode_input ds "transaction_type" t.transaction_type) =
        some t.transaction_type ∧
    decode ds "device_type" (encode_input ds "device_type" t.device_type) =
      some t.device_type ∧
    decode ds "location" (encode_input ds "location" t.location) =
      some t.location ∧
    decode ds "merchant_category"
      (encode_input ds "merchant_category" t.merchant_category) =
        some t.merchant_category ∧
    decode ds "card_type" (encode_input ds "card_type" t.card_type) =
      some t.card_type ∧
    decode ds "authentication_method"
      (encode_input ds "authentication_method" t.authentication_method) =
        some t.authentication_method :=
  ⟨decode_encode_known h1, decode_encode_known h2, decode_encode_known h3,
   decode_encode_known h4, decode_encode_known h5, decode_encode_known h6⟩

/-- Witness for C8: the sample transaction's six categorical labels survive
the encode/decode round trip through the sample dataset. -/
theorem encode_decode_roundtrip_witness :
    decode sampleDs "transaction_type"
      (encode_input sampleDs "transaction_type" "POS") = some "POS" ∧
    decode sampleDs "device_type"
      (encode_input sampleDs "device_type" "Mobile") = some "Mobile" ∧
    decode sampleDs "location"
      (encode_input sampleDs "location" "City A") = some "City A" ∧
    decode sampleDs "merchant_category"
      (encode_input sampleDs "merchant_category" "Retail") = some "Retail" ∧
    decode sampleDs "card_type"
      (encode_input sampleDs "card_type" "Visa") = some "Visa" ∧
    decode sampleDs "authentication_method"
      (encode_input sampleDs "authentication_method" "PIN") = some "PIN" :=
  encode_decode_roundtrip sampleDs sampleTransaction
    ⟨_, rfl, by decide⟩ ⟨_, rfl, by decide⟩ ⟨_, rfl, by decide⟩
    ⟨_, rfl, by decide⟩ ⟨_, rfl, by decide⟩ ⟨_, rfl, by decide⟩

/-- **C6.** The compatibility pass recursively visits every sub-estimator of
an ensemble and every stage of a pipeline — the children of a patched node
are exactly the patched children — it never touches the attribute table of
a non-leaf node, it never alters any attribute already present on any
estimator, after it every leaf carries `monotonic_cst`, and on a leaf that
already had the attribute it changes nothing at all. -/
theorem patch_model_preserves_attrs (m : Model) :
    children (patch_model_recursive m) =
      (children m).map patch_model_recursive ∧
    (isLeaf m = false → attrsOf (patch_model_recursive m) = attrsOf m) ∧
    (∀ name, hasattr m name = true →
      (attrsOf (patch_model_recursive m)).lookup name =
        (attrsOf m).lookup name) ∧
    (isLeaf m = true → hasattr (patch_model_recursive m) "monotonic_cst" = true) ∧
    (isLeaf m = true → hasattr m "monotonic_cst" = true →
      patch_model_recursive m = m) := by
  cases m with
  | ensemble attrs ests =>
    rw [patch_ensemble]
    exact ⟨rfl, fun _ => rfl, fun name _ => rfl,
      fun h => by simp [isLeaf] at h, fun h => by simp [isLeaf] at h⟩
  | pipeline attrs steps =>
    rw [patch_pipeline]
    refine ⟨?_, fun _ => rfl, fun name _ => rfl,
      fun h => by simp [isLeaf] at h, fun h => by simp [isLeaf] at h⟩
    simp [children, List.map_map]
  | leaf attrs =>
    rw [patch_leaf]
    by_cases hmc : (attrs.lookup "monotonic_cst").isSome
    · rw [if_pos hmc]
      exact ⟨rfl, fun _ => rfl, fun name _ => rfl,
        fun _ => hmc, fun _ _ => rfl⟩
    · rw [if_neg hmc]
      refine ⟨rfl, fun h => by simp [isLeaf] at h, ?_, ?_, ?_⟩
      · intro name hname
        exact lookup_append_left attrs _ name hname
      · intro _
        unfold hasattr attrsOf
        rw [lookup_append_none attrs _ "monotonic_cst"
          (Option.not_isSome_iff_eq_none.mp hmc)]
        simp [List.lookup]
      · intro _ hname
        unfold hasattr attrsOf at hname
        rw [hname] at hmc
        exact absurd rfl hmc

/-- Witness for C6: a leaf estimator's pre-existing `weight` attribute reads
the same after the compatibility pass. -/
theorem patch_model_preserves_attrs_witness :
    (attrsOf (patch_model_recursive
        (Model.leaf [("weight", PyValue.int 3)]))).lookup "weight" =
      (attrsOf (Model.leaf [("weight", PyValue.int 3)])).lookup "weight" :=
  (patch_model_preserves_attrs
    (Model.leaf [("weight", PyValue.int 3)])).2.2.1 "weight" rfl

/-- Counterexample to C7 as stated: an artifact that exists but is
unloadable raises an exception the `except FileNotFoundError` clause does
not catch, so loading escapes uncaught instead of entering the degraded
no-scoring mode. -/
theorem load_model_corrupt_counterexample :
    load_model (.raises "UnpicklingError") = .error "UnpicklingError" := rfl

/-- **C7 (amended).** When the model artifact file is absent,
`load_model` catches the error, surfaces the demo-mode warning, and returns
no model; every subsequent scoring attempt with no model loaded refuses to
run — no probability and no tier is produced. (A present but unloadable
artifact instead raises uncaught.) -/
theorem degraded_mode_no_scoring :
    load_model .fileNotFound = .ok (none, true) ∧
    ∀ (btn : Bool) (score : Model → List ℚ → PredictOutcome) (ds : Dataset)
      (t : TransactionInput), prediction_run btn none score ds t = none := by
  refine ⟨rfl, ?_⟩
  intro btn score ds t
  cases btn <;> rfl

/-- Counterexample to C4 as stated: with a model that raises a feature-shape
mismatch on scoring, the prediction block reports the error yet substitutes
probability 0 and still renders a tier — the SAFE display. -/
theorem scoring_error_safe_counterexample :
    prediction_run true (some (Model.leaf [])) failingScore sampleDs
        sampleTransaction =
      some (some ("Prediction Error: " ++ "shape mismatch"), 0, safeDisplay) ∧
    safeDisplay.risk_level = "SAFE" := by
  refine ⟨?_, rfl⟩
  show some (some ("Prediction Error: " ++ "shape mismatch"), 0, classify 0) = _
  rw [classify_zero]

/-- **C4 (amended).** When the underlying model raises on score, the code
shows a `Prediction Error` message but then substitutes probability 0.0 and
proceeds to classification: the caller observes probability 0 together with
the SAFE display rather than an unscored request. -/
theorem scoring_error_substitutes_zero (m : Model) (ds : Dataset)
    (t : TransactionInput) (score : Model → List ℚ → PredictOutcome)
    (e : String) (h : score m (input_features ds t) = .raises e) :
    prediction_run true (some m) score ds t =
      some (some ("Prediction Error: " ++ e), 0, safeDisplay) := by
  simp only [prediction_run, h, classify_zero]

/-- Witness for C4 (amended): the always-raising score function at the
sample transaction yields the substituted probability 0 and the SAFE
display. -/
theorem scoring_error_substitutes_zero_witness :
    prediction_run true (some (Model.leaf [])) failingScore sampleDs
        marsTransaction =
      some (some ("Prediction Error: " ++ "shape mismatch"), 0, safeDisplay) :=
  scoring_error_substitutes_zero (Model.leaf []) sampleDs marsTransaction
    failingScore "shape mismatch" rfl

/-- Counterexample to C9 as stated: a transaction whose amount is the
negative value -1 violates the declared non-negativity constraint, yet the
builder does not fail — it produces a full 18-entry vector with -1 passed
through at the amount position. -/
theorem negative_amount_counterexample :
    negativeAmountTransaction.transaction_amount < 0 ∧
    (input_features sampleDs negativeAmountTransaction).length = 18 ∧
    (input_features sampleDs negativeAmountTransaction)[0]? =
      some (-1 : ℚ) := by
  refine ⟨?_, rfl, rfl⟩
  show (-1 : ℚ) < 0
  norm_num

/-- **C9 (amended).** The feature-vector builder performs no numeric range
validation: for every input, including one whose numeric fields violate
their declared constraints, it produces an 18-entry vector, and every
numeric field is passed through unchanged at its schema position (range
enforcement happens at the input widgets, not in the builder). -/
theorem numeric_passthrough (ds : Dataset) (t : TransactionInput) :
    (input_features ds t).length = 18 ∧
    (input_features ds t)[0]? = some t.transaction_amount ∧
    (input_features ds t)[2]? = some t.account_balance ∧
    (input_features ds t)[6]? = some (t.daily_transaction_count : ℚ) ∧
    (input_features ds t)[7]? = some t.avg_transaction_amount_7d ∧
    (input_features ds t)[8]? = some (t.failed_transaction_count_7d : ℚ) ∧
    (input_features ds t)[10]? = some (t.card_age : ℚ) ∧
    (input_features ds t)[11]? = some t.transaction_distance ∧
    (input_features ds t)[14]? = some (t.hour : ℚ) ∧
    (input_features ds t)[15]? = some (t.day : ℚ) ∧
    (input_features ds t)[16]? = some (t.month : ℚ) ∧
    (input_features ds t)[17]? = some (t.day_of_week : ℚ) := by
  refine ⟨rfl, ?_⟩
  simp [input_features]

end FraudGuard
